import Mathlib

/-!
# Gateway (`cmd/app.go`): a verification development

A shallow embedding of the gateway's start action and of `AddUserHTTPMethods`.

* Go maps with string keys and string-list values (`http.Header`, `url.Values`,
  `metadata.MD`) are association lists with at most one entry per key.
* Calls into packages outside the repository (`url.Parse`, the generated
  `Register…HandlerFromEndpoint` functions, `ListenAndServe`, `Shutdown`, the
  reverse proxy) are fields of an environment record `Lib`; the definitions
  below are the repository's own control flow around them.
-/

namespace Gateway

/-! ## Go string maps -/

/-- A Go `map[string][]string`: one entry per key. -/
abbrev StrMap := List (String × List String)

/-- The Go expression `m[k]`: the value stored under `k`, the nil slice when absent. -/
def StrMap.index : StrMap → String → List String
  | [], _ => []
  | (k', vs) :: rest, k => if k' = k then vs else StrMap.index rest k

/-- The Go statement `m[k] = vs`: replaces the entry of `k` or adds one. -/
def StrMap.assign : StrMap → String → List String → StrMap
  | [], k, vs => [(k, vs)]
  | (k', vs') :: rest, k, vs =>
    if k' = k then (k, vs) :: rest else (k', vs') :: StrMap.assign rest k vs

/-- The keys of a map. -/
def StrMap.keys (m : StrMap) : List String := m.map Prod.fst

/-- ASCII lower-casing of one character (`strings.ToLower` on ASCII input). -/
def lowerChar (c : Char) : Char :=
  if 'A'.toNat ≤ c.toNat ∧ c.toNat ≤ 'Z'.toNat then Char.ofNat (c.toNat + 32) else c

/-- ASCII upper-casing of one character. -/
def upperChar (c : Char) : Char :=
  if 'a'.toNat ≤ c.toNat ∧ c.toNat ≤ 'z'.toNat then Char.ofNat (c.toNat - 32) else c

/-- `strings.ToLower`, on the ASCII range. -/
def ToLower (s : String) : String := String.mk (s.data.map lowerChar)

/-- The loop of `textproto.CanonicalMIMEHeaderKey`: the first letter and every
letter after a hyphen are upper-cased, the others lower-cased. -/
def canonicalChars : Bool → List Char → List Char
  | _, [] => []
  | upper, c :: cs =>
    (if upper then upperChar c else lowerChar c) :: canonicalChars (c == '-') cs

/-- `textproto.CanonicalMIMEHeaderKey` on a key made of header-token characters. -/
def CanonicalMIMEHeaderKey (s : String) : String := String.mk (canonicalChars true s.data)

/-! ## Requests -/

/-- `http.Header`: keys are stored in canonical form. -/
abbrev Header := StrMap

/-- `url.Values`: the parsed query string. -/
abbrev Values := StrMap

/-- `Header.Get`: the first value under the canonical form of `key`, else `""`. -/
def Header.Get (h : Header) (key : String) : String :=
  match StrMap.index h (CanonicalMIMEHeaderKey key) with
  | [] => ""
  | v :: _ => v

/-- `Values.Get`: the first value under `key`, else `""`. -/
def Values.Get (v : Values) (key : String) : String :=
  match StrMap.index v key with
  | [] => ""
  | x :: _ => x

/-- The part of `url.URL` the gateway reads. `query` is what `URL.Query()`
returns for the request's raw query string. -/
structure URL where
  Scheme : String
  Host : String
  Path : String
  query : Values
  deriving DecidableEq, Repr

/-- `URL.Query()`. -/
def URL.Query (u : URL) : Values := u.query

/-- The part of `http.Request` the gateway reads or hands on. -/
structure Request where
  Method : String
  URL : URL
  Header : Header
  Body : List Nat
  deriving DecidableEq, Repr

/-! ## gRPC metadata -/

/-- `metadata.MD`. -/
abbrev MD := StrMap

/-- The loop of `metadata.Pairs`: `md[lower(k)] = append(md[lower(k)], v)`. -/
def MD.addPairs : MD → List (String × String) → MD
  | md, [] => md
  | md, (k, v) :: kvs =>
    MD.addPairs (StrMap.assign md (ToLower k) (StrMap.index md (ToLower k) ++ [v])) kvs

/-- `metadata.Pairs`, its variadic arguments taken two by two. -/
def MD.Pairs (kvs : List (String × String)) : MD := MD.addPairs [] kvs

/-- `MD.Set`: no-op without values, else `md[lower(k)] = vals`. -/
def MD.Set (md : MD) (k : String) (vals : List String) : MD :=
  if vals.length = 0 then md else StrMap.assign md (ToLower k) vals

/-- The closure given to `runtime.WithMetadata` in the start action. -/
def metadataFunc (request : Request) : MD :=
  let md := MD.Pairs [("token", Header.Get request.Header "token")]
  let query := request.URL.Query
  let token := Values.Get query "token"
  if token ≠ "" then MD.Set md "token" [token] else md

/-! ## Errors, handlers and the multiplexer -/

/-- A Go `error` value that is not nil. -/
inductive GoError where
  /-- The sentinel `http.ErrServerClosed`. -/
  | ErrServerClosed
  /-- An error made by `errors.New` or `fmt.Errorf`, or any other library error. -/
  | errorString (msg : String)
  deriving DecidableEq, Repr

/-- The method `Error()`. -/
def GoError.Error : GoError → String
  | .ErrServerClosed => "http: Server closed"
  | .errorString msg => msg

/-- A Go value of interface type `error`; `none` is `nil`. -/
abbrev GoErr := Option GoError

/-- `fmt.Errorf(prefix + "%v", arg)` for a format that ends in its only verb. -/
def Errorf (pre arg : String) : GoError := .errorString (pre ++ arg)

/-- What an `http.ResponseWriter` has been given so far. -/
structure ResponseWriter where
  Status : Nat
  Header : Header
  Body : List Nat
  deriving DecidableEq, Repr

/-- The part of `http.Response` a reverse proxy passes on. -/
structure Response where
  StatusCode : Nat
  Header : Header
  Body : List Nat
  deriving DecidableEq, Repr

/-- What serving one request through a handler amounts to: the outbound
request given to the transport for the backend, what came back for it, and
the client's response writer afterwards. -/
structure Exchange where
  sent : Request
  response : Except GoError Response
  writer : ResponseWriter

/-- The `map[string]string` of matched path parameters. -/
abbrev PathParams := List (String × String)

/-- `httputil.ReverseProxy` as built by `NewSingleHostReverseProxy`. -/
structure ReverseProxy where
  target : URL
  deriving DecidableEq, Repr

/-- `httputil.NewSingleHostReverseProxy`. -/
def NewSingleHostReverseProxy (target : URL) : ReverseProxy := { target := target }

/-- A `runtime.HandlerFunc` value, named by the code that builds it. -/
inductive HandlerFunc where
  /-- The closure `forwardMethod` of `AddUserHTTPMethods`, holding its proxy. -/
  | forwardMethod (proxy : ReverseProxy)
  /-- A handler installed by generated registration code. -/
  | generated (rpc : String)
  deriving DecidableEq, Repr

/-- One registered (method, path pattern, handler) entry. -/
structure Route where
  method : String
  pattern : String
  handler : HandlerFunc
  deriving DecidableEq, Repr

/-- The option values `runtime.NewServeMux` is given in this program. -/
inductive MetadataAnnotator where
  /-- The closure of the start action, `metadataFunc`. -/
  | tokenAnnotator
  deriving DecidableEq, Repr

/-- The function a metadata annotator stands for. -/
def MetadataAnnotator.apply : MetadataAnnotator → Request → MD
  | .tokenAnnotator => metadataFunc

/-- `runtime.ServeMux`: its metadata annotators and its registered routes. -/
structure ServeMux where
  metadataAnnotators : List MetadataAnnotator
  routes : List Route
  deriving DecidableEq, Repr

/-- `runtime.NewServeMux(runtime.WithMetadata(f))`. -/
def NewServeMux (annotators : List MetadataAnnotator) : ServeMux :=
  { metadataAnnotators := annotators, routes := [] }

/-- A call the program makes into a library, in program order. -/
inductive Call where
  | RegisterTrackingServiceHandlerFromEndpoint (endpoint : String)
  | RegisterUserServiceHandlerFromEndpoint (endpoint : String)
  | Parse (rawURL : String)
  | Fatalf (msg : String)
  | HandlePath (meth pattern : String) (h : HandlerFunc)
  | Notify
  | Shutdown
  deriving DecidableEq, Repr

/-- A call made by the serving goroutine. -/
inductive ServeCall where
  | Info (msg addr : String)
  | ListenAndServe (addr : String)
  | Error (msg : String) (err : GoError)
  deriving DecidableEq, Repr

/-- The behaviour of the packages outside the repository, given as data: what
each library call answers. A registration that fails leaves the mux as it was. -/
structure Lib where
  /-- `url.Parse`. -/
  Parse : String → Except GoError URL
  /-- `trkpb.RegisterTrackingServiceHandlerFromEndpoint` on a mux and an endpoint. -/
  RegisterTracking : ServeMux → String → Except GoError ServeMux
  /-- `userpb.RegisterUserServiceHandlerFromEndpoint` on a mux and an endpoint. -/
  RegisterUser : ServeMux → String → Except GoError ServeMux
  /-- `(*runtime.ServeMux).HandlePath`. -/
  HandlePath : ServeMux → String → String → HandlerFunc → Except GoError ServeMux
  /-- The error `httpServer.ListenAndServe()` returns for the address it is given. -/
  ListenAndServe : String → GoErr
  /-- Whether SIGINT or SIGTERM is ever delivered to the process. -/
  signalDelivered : Bool
  /-- The error `httpServer.Shutdown(ctx)` returns. -/
  Shutdown : GoErr
  /-- The outbound request `(*httputil.ReverseProxy).ServeHTTP` builds from the
  inbound one (the director's rewrite and the proxy's own header changes). -/
  ProxyOutbound : ReverseProxy → Request → Request
  /-- The transport's round trip: the backend's answer to an outbound request,
  or the error of not reaching it. -/
  RoundTrip : Request → Except GoError Response
  /-- What `(*httputil.ReverseProxy).ServeHTTP` leaves in the response writer
  for an inbound request and the outcome of the round trip. -/
  ProxyWrite : ReverseProxy → ResponseWriter → Request → Except GoError Response →
    ResponseWriter
  /-- The handlers of generated code. -/
  GeneratedServeHTTP : String → ResponseWriter → Request → PathParams → Exchange

/-- `(*httputil.ReverseProxy).ServeHTTP`: the proxy builds its outbound request
from the inbound one, has the transport carry it to the backend, and writes
to the response writer from what came back. -/
def ReverseProxy.ServeHTTP (lib : Lib) (proxy : ReverseProxy) (w : ResponseWriter)
    (r : Request) : Exchange :=
  { sent := lib.ProxyOutbound proxy r
    response := lib.RoundTrip (lib.ProxyOutbound proxy r)
    writer := lib.ProxyWrite proxy w r (lib.RoundTrip (lib.ProxyOutbound proxy r)) }

/-- The closure `forwardMethod` of `AddUserHTTPMethods`:
`proxy.ServeHTTP(w, r)`, the path parameters unused. -/
def forwardMethod (lib : Lib) (proxy : ReverseProxy) (w : ResponseWriter) (r : Request)
    (_pathParams : PathParams) : Exchange :=
  ReverseProxy.ServeHTTP lib proxy w r

/-- How a function of the program ends. -/
inductive Outcome where
  /-- It returned this `error`. -/
  | returned (err : GoErr)
  /-- The process exited (`log.Fatalf` exits with status 1). -/
  | exited (status : Nat)
  /-- It is blocked on `<-stop` and no signal is ever delivered. -/
  | waiting
  deriving DecidableEq, Repr

/-- What `AddUserHTTPMethods` leaves behind. -/
structure AddResult where
  outcome : Outcome
  mux : ServeMux
  calls : List Call
  deriving DecidableEq, Repr

/-- `AddUserHTTPMethods`. -/
def AddUserHTTPMethods (lib : Lib) (userHttpEndpoint : String) (mux : ServeMux) : AddResult :=
  match lib.Parse userHttpEndpoint with
  | .error err =>
    { outcome := .exited 1, mux := mux
      calls := [.Parse userHttpEndpoint, .Fatalf ("Failed to parse target URL: " ++ err.Error)] }
  | .ok targetURL =>
    let proxy := NewSingleHostReverseProxy targetURL
    let forward := HandlerFunc.forwardMethod proxy
    match lib.HandlePath mux "GET" "/api/v1/user/avatar/download/{code}" forward with
    | .error e =>
      { outcome := .returned (some e), mux := mux
        calls := [.Parse userHttpEndpoint,
                  .HandlePath "GET" "/api/v1/user/avatar/download/{code}" forward] }
    | .ok mux1 =>
      match lib.HandlePath mux1 "POST" "/api/v1/user/avatar/upload" forward with
      | .error e =>
        { outcome := .returned (some e), mux := mux1
          calls := [.Parse userHttpEndpoint,
                    .HandlePath "GET" "/api/v1/user/avatar/download/{code}" forward,
                    .HandlePath "POST" "/api/v1/user/avatar/upload" forward] }
      | .ok mux2 =>
        { outcome := .returned none, mux := mux2
          calls := [.Parse userHttpEndpoint,
                    .HandlePath "GET" "/api/v1/user/avatar/download/{code}" forward,
                    .HandlePath "POST" "/api/v1/user/avatar/upload" forward] }

/-! ## The start action -/

/-- The package-level variables the flags fill in. -/
structure Config where
  ServiceHost : String
  ServicePort : Nat
  TrackingEndPoint : String
  UserEndPoint : String
  UserHttpEndPoint : String
  deriving DecidableEq, Repr

/-- `net.JoinHostPort`: a host with a colon in it is bracketed. -/
def JoinHostPort (host port : String) : String :=
  if host.data.contains ':' then "[" ++ host ++ "]:" ++ port else host ++ ":" ++ port

/-- `http.Server` as the start action fills it in: the address and the mux
behind the websocket proxy handler. The handler holds the mux by pointer, so
the server serves the mux as `AddUserHTTPMethods` leaves it. -/
structure Server where
  Addr : String
  Handler : ServeMux
  deriving DecidableEq, Repr

/-- The goroutine of the start action: it logs, serves, and logs an error that
is neither nil nor `http.ErrServerClosed`. -/
def serveGoroutine (lib : Lib) (gatewayAddr : String) : List ServeCall :=
  [.Info "starting gateway HTTP server" gatewayAddr, .ListenAndServe gatewayAddr] ++
    (match lib.ListenAndServe gatewayAddr with
     | some err =>
       if err ≠ GoError.ErrServerClosed then
         [.Error "failed to serve gateway http server" err]
       else []
     | none => [])

/-- One run of the start action: how it ends, the library calls of the main
flow in order, and the server and calls of the serving goroutine when it was
started. -/
structure StartResult where
  outcome : Outcome
  calls : List Call
  server : Option Server
  goroutine : Option (List ServeCall)
  deriving DecidableEq, Repr

/-- The `Action` of the `start` command. -/
def startAction (lib : Lib) (cfg : Config) : StartResult :=
  let gatewayAddr := JoinHostPort cfg.ServiceHost (toString cfg.ServicePort)
  let gwMux := NewServeMux [.tokenAnnotator]
  match lib.RegisterTracking gwMux cfg.TrackingEndPoint with
  | .error e =>
    { outcome := .returned (some (Errorf "failed to register tracking: " e.Error))
      calls := [.RegisterTrackingServiceHandlerFromEndpoint cfg.TrackingEndPoint]
      server := none, goroutine := none }
  | .ok mux1 =>
    match lib.RegisterUser mux1 cfg.UserEndPoint with
    | .error e =>
      { outcome := .returned (some (Errorf "failed to register user: " e.Error))
        calls := [.RegisterTrackingServiceHandlerFromEndpoint cfg.TrackingEndPoint,
                  .RegisterUserServiceHandlerFromEndpoint cfg.UserEndPoint]
        server := none, goroutine := none }
    | .ok mux2 =>
      let added := AddUserHTTPMethods lib cfg.UserHttpEndPoint mux2
      let calls := [Call.RegisterTrackingServiceHandlerFromEndpoint cfg.TrackingEndPoint,
                    Call.RegisterUserServiceHandlerFromEndpoint cfg.UserEndPoint] ++ added.calls
      match added.outcome with
      | .returned none =>
        let httpServer : Server := { Addr := gatewayAddr, Handler := added.mux }
        let serving := serveGoroutine lib httpServer.Addr
        if lib.signalDelivered then
          match lib.Shutdown with
          | some err =>
            { outcome := .returned (some (Errorf "HTTP server shutdown error: " err.Error))
              calls := calls ++ [.Notify, .Shutdown]
              server := some httpServer, goroutine := some serving }
          | none =>
            { outcome := .returned none
              calls := calls ++ [.Notify, .Shutdown]
              server := some httpServer, goroutine := some serving }
        else
          { outcome := .waiting
            calls := calls ++ [.Notify]
            server := some httpServer, goroutine := some serving }
      | other =>
        { outcome := other, calls := calls, server := none, goroutine := none }

/-! ## The route table of the specification -/

/-- Modelled from the spec: the error `RouteConflict` of a duplicate
registration (§7), which the route table's `register` returns. -/
def RouteConflict : GoError := .errorString "RouteConflict"

/-- Modelled from the spec: the route table's `register` (§4.2), which stands
for `(*runtime.ServeMux).HandlePath` of grpc-gateway, a package that is not part
of the repository. It adds the route; it fails with RouteConflict if an
identical (method, pattern) pair is already registered. -/
def RouteTable.register (mux : ServeMux) (meth pattern : String) (h : HandlerFunc) :
    Except GoError ServeMux :=
  if mux.routes.any (fun r => decide (r.method = meth ∧ r.pattern = pattern)) then
    .error RouteConflict
  else
    .ok { mux with routes := mux.routes ++ [{ method := meth, pattern := pattern, handler := h }] }

/-- Modelled from the spec: one segment of a path pattern of the route table
(§3, §4.2), a literal or a single named segment. -/
inductive Segment where
  | lit (s : String)
  | param (name : String)
  deriving DecidableEq, Repr

/-- Modelled from the spec: the splitting of a path of the route table (§4.2)
at every `/`. -/
def splitSlash : List Char → List (List Char)
  | [] => [[]]
  | c :: cs =>
    if c = '/' then [] :: splitSlash cs
    else
      match splitSlash cs with
      | [] => [[c]]
      | seg :: rest => (c :: seg) :: rest

/-- Modelled from the spec: the segments of a concrete path or of a pattern of
the route table (§4.2), what stands between the slashes after the leading
one; nothing for a text without a leading slash. -/
def pathSegments (path : String) : Option (List String) :=
  match path.data with
  | '/' :: rest => some ((splitSlash rest).map String.mk)
  | _ => none

/-- Modelled from the spec: a pattern segment is a single named segment when
it is a name in braces (§4.2, "single named segments (e.g. {code}) but not
partial-segment wildcards"), and a literal otherwise. -/
def parseSegment (s : String) : Segment :=
  match s.data with
  | '{' :: rest =>
    if rest.getLast? = some '}' then .param (String.mk rest.dropLast) else .lit s
  | _ => .lit s

/-- Modelled from the spec: the segments of a pattern of the route table
(§4.2). -/
def parsePattern (pattern : String) : Option (List Segment) :=
  (pathSegments pattern).map (fun segs => segs.map parseSegment)

/-- Modelled from the spec: a literal segment matches only itself, a named
segment matches exactly one path segment and binds it. -/
def matchSegments : List Segment → List String → Option PathParams
  | [], [] => some []
  | .lit s :: ps, c :: cs => if s = c then matchSegments ps cs else none
  | .param name :: ps, c :: cs => (matchSegments ps cs).map (fun bound => (name, c) :: bound)
  | _, _ => none

/-- Modelled from the spec: whether a route of the route table matches a
(method, concrete path) pair (§3), and the path parameters it binds when it
does. -/
def Route.matchPath (r : Route) (meth path : String) : Option PathParams :=
  if r.method = meth then
    match parsePattern r.pattern, pathSegments path with
    | some pat, some segs => matchSegments pat segs
    | _, _ => none
  else none

/-- Modelled from the spec: the number of wildcard (named) segments of a
route's pattern, by which the route table ranks matches (§3). -/
def Route.wildcards (r : Route) : Nat :=
  match parsePattern r.pattern with
  | some pat => (pat.filter (fun seg => match seg with | .param _ => true | .lit _ => false)).length
  | none => 0

/-- Modelled from the spec: the choice of the route table between a candidate
found so far and a further matching route (§3), the one with fewer named
segments, the earlier one on a tie. -/
def moreSpecific (best : Option (Route × PathParams)) (r : Route) (bound : PathParams) :
    Option (Route × PathParams) :=
  match best with
  | none => some (r, bound)
  | some (b, bb) => if r.wildcards < b.wildcards then some (r, bound) else some (b, bb)

/-- Modelled from the spec: the route table's `match` (§3, §4.2), which
stands for the matching of `runtime.ServeMux`, not part of the repository:
the most specific (fewest wildcard segments) matching route, or NotFound
(`none`) if none match. -/
def RouteTable.matchRoute (routes : List Route) (meth path : String) :
    Option (Route × PathParams) :=
  routes.foldl
    (fun best r =>
      match r.matchPath meth path with
      | some bound => moreSpecific best r bound
      | none => best)
    none

/-- Modelled from the spec: the routes of a list that match a (method,
concrete path) pair in the sense of the route table (§3). -/
def matchingRoutes (routes : List Route) (meth path : String) : List Route :=
  routes.filter (fun r => (r.matchPath meth path).isSome)

/-! ## Sample environments -/

/-- A `url.Parse` that accepts every text as a host name. -/
def sampleParse (rawURL : String) : Except GoError URL :=
  .ok { Scheme := "http", Host := rawURL, Path := "", query := [] }

/-- The flag values of a typical start. -/
def sampleConfig : Config :=
  { ServiceHost := "0.0.0.0", ServicePort := 5000
    TrackingEndPoint := "tracking:6000", UserEndPoint := "user:6001"
    UserHttpEndPoint := "user:8080" }

/-- The address of the client in the sample environment. -/
def sampleClientIP : String := "203.0.113.7"

/-- The outbound request of the sample environment, built in the manner of the
single-host reverse proxy of `net/http/httputil` for a target without base
path or query and an inbound request without hop-by-hop headers: the URL gets
the scheme and host of the target, the client address is appended to
`X-Forwarded-For`, and an absent `User-Agent` is set to the empty string. -/
def sampleOutbound (proxy : ReverseProxy) (r : Request) : Request :=
  let prior := StrMap.index r.Header "X-Forwarded-For"
  let forwarded :=
    if prior = [] then sampleClientIP else String.intercalate ", " prior ++ ", " ++ sampleClientIP
  let h1 := StrMap.assign r.Header "X-Forwarded-For" [forwarded]
  let h2 := if "User-Agent" ∈ StrMap.keys h1 then h1 else StrMap.assign h1 "User-Agent" [""]
  { r with
    URL := { r.URL with Scheme := proxy.target.Scheme, Host := proxy.target.Host }
    Header := h2 }

/-- The backend of the sample environment: it answers every request with
status 200 and a three-byte body. -/
def sampleRoundTrip (_out : Request) : Except GoError Response :=
  .ok { StatusCode := 200, Header := [("Content-Type", ["image/png"])], Body := [137, 80, 78] }

/-- The writing of the sample environment: the backend's status, headers and
body, or status 502 when the backend was not reached. -/
def sampleWrite (_proxy : ReverseProxy) (w : ResponseWriter) (_r : Request) :
    Except GoError Response → ResponseWriter
  | .ok res => { Status := res.StatusCode, Header := res.Header, Body := res.Body }
  | .error _ => { w with Status := 502 }

/-- An environment in which every library call succeeds: registrations add
routes, the listener serves until it is shut down, a signal arrives and the
shutdown is clean. The reverse proxy routes the request to its target and
adds the forwarding headers. -/
def sampleLib : Lib :=
  { Parse := sampleParse
    RegisterTracking := fun mux _ =>
      .ok { mux with routes := mux.routes ++
              [{ method := "POST", pattern := "/api/v1/tracking", handler := .generated "tracking" }] }
    RegisterUser := fun mux _ =>
      .ok { mux with routes := mux.routes ++
              [{ method := "POST", pattern := "/api/v1/user", handler := .generated "user" }] }
    HandlePath := RouteTable.register
    ListenAndServe := fun _ => some .ErrServerClosed
    signalDelivered := true
    Shutdown := none
    ProxyOutbound := sampleOutbound
    RoundTrip := sampleRoundTrip
    ProxyWrite := sampleWrite
    GeneratedServeHTTP := fun _ w r _ =>
      { sent := r, response := .error (.errorString "no backend"), writer := { w with Status := 200 } } }

/-- The sample environment, except that the address cannot be bound. -/
def bindFailureLib : Lib :=
  { sampleLib with
    ListenAndServe := fun _ =>
      some (.errorString "listen tcp 0.0.0.0:5000: bind: address already in use") }

/-- The bind-failure environment in which no signal is ever delivered. -/
def bindFailureNoSignalLib : Lib :=
  { bindFailureLib with signalDelivered := false }

/-- The sample environment, except that the tracking registration fails. -/
def trackingFailureLib : Lib :=
  { sampleLib with RegisterTracking := fun _ _ => .error (.errorString "dial failed") }

/-- The sample environment, except that the user registration fails. -/
def userFailureLib : Lib :=
  { sampleLib with RegisterUser := fun _ _ => .error (.errorString "dial failed") }

/-- The sample environment, except that the user registration has already
taken the download route, so that the first `HandlePath` call conflicts. -/
def conflictLib : Lib :=
  { sampleLib with
    RegisterUser := fun mux _ =>
      .ok { mux with routes := mux.routes ++
              [{ method := "GET", pattern := "/api/v1/user/avatar/download/{code}",
                 handler := .generated "user" }] } }

/-- The sample environment, except that the user registration has already
taken the upload route, so that the second `HandlePath` call conflicts. -/
def uploadConflictLib : Lib :=
  { sampleLib with
    RegisterUser := fun mux _ =>
      .ok { mux with routes := mux.routes ++
              [{ method := "POST", pattern := "/api/v1/user/avatar/upload",
                 handler := .generated "user" }] } }

/-! ## Sample requests -/

/-- A request carrying header token `h` and query token `q`, nothing else. -/
def tokenRequest (h q : String) : Request :=
  { Method := "GET"
    URL := { Scheme := "", Host := "", Path := "/api/v1/user/profile", query := [("token", [q])] }
    Header := [("Token", [h])]
    Body := [] }

/-- A request with neither a `token` header nor a `token` query parameter. -/
def bareRequest : Request :=
  { Method := "GET"
    URL := { Scheme := "", Host := "", Path := "/api/v1/user/profile", query := [] }
    Header := [("Accept", ["*/*"])]
    Body := [] }

end Gateway

namespace Gateway

/-! ## The metadata extractor -/

theorem toLower_token : ToLower "token" = "token" := by decide

theorem canonical_token : CanonicalMIMEHeaderKey "token" = "Token" := by decide

theorem pairs_token (v : String) : MD.Pairs [("token", v)] = [("token", [v])] := by
  simp [MD.Pairs, MD.addPairs, StrMap.assign, StrMap.index, toLower_token]

theorem set_token (v w : String) :
    MD.Set [("token", [v])] "token" [w] = [("token", [w])] := by
  simp [MD.Set, StrMap.assign, toLower_token]

/-- The extractor in closed form: the query token when it is non-empty, else
the header token. -/
theorem metadataFunc_eq (request : Request) :
    metadataFunc request =
      [("token", [if Values.Get request.URL.Query "token" ≠ "" then
                    Values.Get request.URL.Query "token"
                  else Header.Get request.Header "token"])] := by
  unfold metadataFunc
  simp only [pairs_token]
  by_cases hq : Values.Get request.URL.Query "token" = ""
  · simp [hq]
  · simp [hq, set_token]

/-- A header without the canonical key `Token` reads as the empty token. -/
theorem header_get_absent (h : Header) (habs : "Token" ∉ StrMap.keys h) :
    Header.Get h "token" = "" := by
  have hidx : ∀ m : StrMap, "Token" ∉ StrMap.keys m → StrMap.index m "Token" = [] := by
    intro m
    induction m with
    | nil => intro _; rfl
    | cons e rest ih =>
      intro hm
      obtain ⟨k, vs⟩ := e
      simp only [StrMap.keys, List.map_cons, List.mem_cons, not_or] at hm
      have hk : ¬ k = "Token" := fun hk => hm.1 hk.symm
      simp only [StrMap.index, hk, if_false]
      exact ih hm.2
  simp [Header.Get, canonical_token, hidx h habs]

/-- A query string without the key `token` reads as the empty token. -/
theorem values_get_absent (v : Values) (habs : "token" ∉ StrMap.keys v) :
    Values.Get v "token" = "" := by
  have hidx : ∀ m : StrMap, "token" ∉ StrMap.keys m → StrMap.index m "token" = [] := by
    intro m
    induction m with
    | nil => intro _; rfl
    | cons e rest ih =>
      intro hm
      obtain ⟨k, vs⟩ := e
      simp only [StrMap.keys, List.map_cons, List.mem_cons, not_or] at hm
      have hk : ¬ k = "token" := fun hk => hm.1 hk.symm
      simp only [StrMap.index, hk, if_false]
      exact ih hm.2
  simp [Values.Get, hidx v habs]

/-- C1, as stated, fails: with header token "h" and query token "q" the value
stored under "token" is "q", not the header token the claim prescribes. -/
theorem C1_header_precedence_fails :
    Header.Get (tokenRequest "h" "q").Header "token" = "h" ∧
    Values.Get (tokenRequest "h" "q").URL.Query "token" = "q" ∧
    StrMap.index (metadataFunc (tokenRequest "h" "q")) "token" = ["q"] ∧
    StrMap.index (metadataFunc (tokenRequest "h" "q")) "token" ≠
      [if Header.Get (tokenRequest "h" "q").Header "token" ≠ "" then
         Header.Get (tokenRequest "h" "q").Header "token"
       else Values.Get (tokenRequest "h" "q").URL.Query "token"] := by
  decide

/-- C1, amended: for every request with header token h and query token q
(absent read as empty), the value stored under "token" is q when q is
non-empty, otherwise h, which is the empty string when the header token is
absent or empty too. -/
theorem C1_token_precedence (request : Request) :
    StrMap.index (metadataFunc request) "token" =
      [if Values.Get request.URL.Query "token" ≠ "" then
         Values.Get request.URL.Query "token"
       else if Header.Get request.Header "token" ≠ "" then
         Header.Get request.Header "token"
       else ""] := by
  rw [metadataFunc_eq]
  by_cases hq : Values.Get request.URL.Query "token" = ""
  · by_cases hh : Header.Get request.Header "token" = ""
    · simp [StrMap.index, hq, hh]
    · simp [StrMap.index, hq, hh]
  · simp [StrMap.index, hq]

/-- C2: the extractor is a total function whose result has "token" as its only
key and exactly one value under it; that value is the empty string when the
request has neither a token header nor a token query parameter. -/
theorem C2_single_token_entry (request : Request) :
    StrMap.keys (metadataFunc request) = ["token"] ∧
    (StrMap.index (metadataFunc request) "token").length = 1 ∧
    (∃ v, metadataFunc request = [("token", [v])]) ∧
    (("Token" ∉ StrMap.keys request.Header ∧ "token" ∉ StrMap.keys request.URL.Query) →
      metadataFunc request = [("token", [""])]) := by
  refine ⟨?_, ?_, ?_, ?_⟩
  · rw [metadataFunc_eq]; rfl
  · rw [metadataFunc_eq]; simp [StrMap.index]
  · exact ⟨_, metadataFunc_eq request⟩
  · rintro ⟨hh, hq⟩
    rw [metadataFunc_eq, header_get_absent _ hh, values_get_absent _ hq]
    simp

/-- C2 at a request without any token: the mapping is {"token": [""]}. -/
theorem C2_single_token_entry_witness :
    StrMap.keys (metadataFunc bareRequest) = ["token"] ∧
    metadataFunc bareRequest = [("token", [""])] :=
  ⟨(C2_single_token_entry bareRequest).1,
   (C2_single_token_entry bareRequest).2.2.2 ⟨by decide, by decide⟩⟩

/-- C3: when at most one of the header token and the query token is non-empty,
the extracted token is that value: the query token when the header token is
absent or empty, the header token when the query token is absent or empty. -/
theorem C3_non_conflicting_sources (request : Request)
    (hone : Header.Get request.Header "token" = "" ∨
            Values.Get request.URL.Query "token" = "") :
    metadataFunc request =
      [("token", [if Header.Get request.Header "token" = "" then
                    Values.Get request.URL.Query "token"
                  else Header.Get request.Header "token"])] := by
  rw [metadataFunc_eq]
  rcases hone with hh | hq
  · by_cases hq : Values.Get request.URL.Query "token" = ""
    · simp [hq, hh]
    · simp [hq, hh]
  · by_cases hh : Header.Get request.Header "token" = ""
    · simp [hq, hh]
    · simp [hq, hh]

/-- C3 at a request whose only token is the query parameter "q", and at one
whose only token is the header "h". -/
theorem C3_non_conflicting_sources_witness :
    metadataFunc (tokenRequest "" "q") = [("token", ["q"])] ∧
    metadataFunc (tokenRequest "h" "") = [("token", ["h"])] :=
  ⟨C3_non_conflicting_sources (tokenRequest "" "q") (Or.inl (by decide)),
   C3_non_conflicting_sources (tokenRequest "h" "") (Or.inr (by decide))⟩

/-- C10: a non-empty query token q makes the result {"token": [q]} whatever the
header holds; the header token is the result only when the query token is
absent or empty. -/
theorem C10_query_token_overrides (request : Request) :
    (Values.Get request.URL.Query "token" ≠ "" →
      metadataFunc request = [("token", [Values.Get request.URL.Query "token"])]) ∧
    (Values.Get request.URL.Query "token" = "" →
      metadataFunc request = [("token", [Header.Get request.Header "token"])]) ∧
    (metadataFunc request = [("token", [Header.Get request.Header "token"])] →
      Values.Get request.URL.Query "token" = "" ∨
      Values.Get request.URL.Query "token" = Header.Get request.Header "token") := by
  refine ⟨?_, ?_, ?_⟩
  · intro hq
    rw [metadataFunc_eq]
    simp [hq]
  · intro hq
    rw [metadataFunc_eq]
    simp [hq]
  · intro hmd
    rw [metadataFunc_eq] at hmd
    by_cases hq : Values.Get request.URL.Query "token" = ""
    · exact Or.inl hq
    · right
      simpa [hq] using hmd

/-- C10 at header token "h" and query token "q": the result is {"token": ["q"]}. -/
theorem C10_query_token_overrides_witness :
    metadataFunc (tokenRequest "h" "q") = [("token", ["q"])] :=
  (C10_query_token_overrides (tokenRequest "h" "q")).1 (by decide)

/-! ## Passthrough forwarding -/

/-- A successful `AddUserHTTPMethods` made both `HandlePath` calls, in order. -/
theorem addUser_success (lib : Lib) (userHttpEndpoint : String) (mux : ServeMux)
    (hok : (AddUserHTTPMethods lib userHttpEndpoint mux).outcome = .returned none) :
    ∃ target mux1 mux2, lib.Parse userHttpEndpoint = .ok target ∧
      lib.HandlePath mux "GET" "/api/v1/user/avatar/download/{code}"
        (.forwardMethod (NewSingleHostReverseProxy target)) = .ok mux1 ∧
      lib.HandlePath mux1 "POST" "/api/v1/user/avatar/upload"
        (.forwardMethod (NewSingleHostReverseProxy target)) = .ok mux2 ∧
      AddUserHTTPMethods lib userHttpEndpoint mux =
        { outcome := .returned none, mux := mux2
          calls := [.Parse userHttpEndpoint,
                    .HandlePath "GET" "/api/v1/user/avatar/download/{code}"
                      (.forwardMethod (NewSingleHostReverseProxy target)),
                    .HandlePath "POST" "/api/v1/user/avatar/upload"
                      (.forwardMethod (NewSingleHostReverseProxy target))] } := by
  cases hp : lib.Parse userHttpEndpoint with
  | error err => simp [AddUserHTTPMethods, hp] at hok
  | ok target =>
    cases h1 : lib.HandlePath mux "GET" "/api/v1/user/avatar/download/{code}"
        (.forwardMethod (NewSingleHostReverseProxy target)) with
    | error e => simp [AddUserHTTPMethods, hp, h1] at hok
    | ok mux1 =>
      cases h2 : lib.HandlePath mux1 "POST" "/api/v1/user/avatar/upload"
          (.forwardMethod (NewSingleHostReverseProxy target)) with
      | error e => simp [AddUserHTTPMethods, hp, h1, h2] at hok
      | ok mux2 =>
        refine ⟨target, mux1, mux2, rfl, h1, h2, ?_⟩
        simp [AddUserHTTPMethods, hp, h1, h2]

theorem register_ok (mux mux1 : ServeMux) (meth pattern : String) (h : HandlerFunc)
    (hreg : RouteTable.register mux meth pattern h = .ok mux1) :
    mux1 = { mux with routes := mux.routes ++
              [{ method := meth, pattern := pattern, handler := h }] } := by
  unfold RouteTable.register at hreg
  split at hreg
  · cases hreg
  · cases hreg; rfl

/-- With the specification's `register`, a successful `AddUserHTTPMethods`
appends the two passthrough routes. -/
theorem addUser_routes (lib : Lib) (userHttpEndpoint : String) (mux : ServeMux)
    (hreg : lib.HandlePath = RouteTable.register)
    (hok : (AddUserHTTPMethods lib userHttpEndpoint mux).outcome = .returned none) :
    ∃ target, lib.Parse userHttpEndpoint = .ok target ∧
      (AddUserHTTPMethods lib userHttpEndpoint mux).mux =
        { mux with routes := mux.routes ++
          [{ method := "GET", pattern := "/api/v1/user/avatar/download/{code}",
             handler := .forwardMethod (NewSingleHostReverseProxy target) },
           { method := "POST", pattern := "/api/v1/user/avatar/upload",
             handler := .forwardMethod (NewSingleHostReverseProxy target) }] } := by
  obtain ⟨target, mux1, mux2, hp, h1, h2, hres⟩ := addUser_success lib userHttpEndpoint mux hok
  refine ⟨target, hp, ?_⟩
  rw [hres]
  rw [hreg] at h1 h2
  have e1 := register_ok _ _ _ _ _ h1
  have e2 := register_ok _ _ _ _ _ h2
  subst e1
  subst e2
  simp

/-- C5: when AddUserHTTPMethods succeeds on a mux, it has made exactly two
registrations, (GET, /api/v1/user/avatar/download/{code}) and then (POST,
/api/v1/user/avatar/upload), both with the same forward handler over the
reverse proxy of the given user-HTTP endpoint; registration being the route
table's register, the mux has gained exactly these two routes, in that order,
and the routes already on it, and its metadata annotators, are unchanged. -/
theorem C5_passthrough_route_surface (lib : Lib) (userHttpEndpoint : String) (mux : ServeMux)
    (hok : (AddUserHTTPMethods lib userHttpEndpoint mux).outcome = .returned none) :
    ∃ target, lib.Parse userHttpEndpoint = .ok target ∧
      (AddUserHTTPMethods lib userHttpEndpoint mux).calls =
        [.Parse userHttpEndpoint,
         .HandlePath "GET" "/api/v1/user/avatar/download/{code}"
           (.forwardMethod (NewSingleHostReverseProxy target)),
         .HandlePath "POST" "/api/v1/user/avatar/upload"
           (.forwardMethod (NewSingleHostReverseProxy target))] ∧
      (lib.HandlePath = RouteTable.register →
        (AddUserHTTPMethods lib userHttpEndpoint mux).mux.routes = mux.routes ++
            [{ method := "GET", pattern := "/api/v1/user/avatar/download/{code}",
               handler := .forwardMethod (NewSingleHostReverseProxy target) },
             { method := "POST", pattern := "/api/v1/user/avatar/upload",
               handler := .forwardMethod (NewSingleHostReverseProxy target) }] ∧
        (AddUserHTTPMethods lib userHttpEndpoint mux).mux.routes.length =
          mux.routes.length + 2 ∧
        (AddUserHTTPMethods lib userHttpEndpoint mux).mux.routes.take mux.routes.length =
          mux.routes ∧
        (AddUserHTTPMethods lib userHttpEndpoint mux).mux.metadataAnnotators =
          mux.metadataAnnotators) := by
  obtain ⟨target, _, _, hp, _, _, hres⟩ := addUser_success lib userHttpEndpoint mux hok
  refine ⟨target, hp, ?_, ?_⟩
  · rw [hres]
  · intro hreg
    obtain ⟨target2, hp2, hmux⟩ := addUser_routes lib userHttpEndpoint mux hreg hok
    have ht : target2 = target := by
      rw [hp] at hp2
      cases hp2
      rfl
    subst ht
    refine ⟨?_, ?_, ?_, ?_⟩
    · rw [hmux]
    · rw [hmux]; simp
    · rw [hmux]; simp
    · rw [hmux]

/-- C5 on a mux that already holds a route of the user service. -/
theorem C5_passthrough_route_surface_witness :
    ∃ target, sampleLib.Parse "user:8080" = .ok target ∧
      (AddUserHTTPMethods sampleLib "user:8080"
          { metadataAnnotators := [.tokenAnnotator],
            routes := [{ method := "POST", pattern := "/api/v1/user",
                         handler := .generated "user" }] }).mux.routes =
        [{ method := "POST", pattern := "/api/v1/user", handler := .generated "user" },
         { method := "GET", pattern := "/api/v1/user/avatar/download/{code}",
           handler := .forwardMethod (NewSingleHostReverseProxy target) },
         { method := "POST", pattern := "/api/v1/user/avatar/upload",
           handler := .forwardMethod (NewSingleHostReverseProxy target) }] := by
  obtain ⟨target, hp, _, hroutes⟩ :=
    C5_passthrough_route_surface sampleLib "user:8080"
      { metadataAnnotators := [.tokenAnnotator],
        routes := [{ method := "POST", pattern := "/api/v1/user",
                     handler := .generated "user" }] }
      (by decide)
  exact ⟨target, hp, (hroutes rfl).1⟩

/-! ## Matching the passthrough routes -/

theorem parse_download :
    parsePattern "/api/v1/user/avatar/download/{code}" =
      some [.lit "api", .lit "v1", .lit "user", .lit "avatar", .lit "download", .param "code"] := by
  decide

theorem parse_upload :
    parsePattern "/api/v1/user/avatar/upload" =
      some [.lit "api", .lit "v1", .lit "user", .lit "avatar", .lit "upload"] := by
  decide

theorem matchSegments_nil_iff (segs : List String) (bound : PathParams) :
    matchSegments [] segs = some bound ↔ segs = [] ∧ bound = [] := by
  cases segs with
  | nil => simp [matchSegments, eq_comm]
  | cons c cs => simp [matchSegments]

theorem matchSegments_lit_iff (s : String) (ps : List Segment) (segs : List String)
    (bound : PathParams) :
    matchSegments (.lit s :: ps) segs = some bound ↔
      ∃ cs, segs = s :: cs ∧ matchSegments ps cs = some bound := by
  cases segs with
  | nil => simp [matchSegments]
  | cons c cs =>
    by_cases hsc : s = c
    · subst hsc
      simp [matchSegments]
    · have hcs : ¬ c = s := fun h => hsc h.symm
      simp [matchSegments, hsc, hcs]

theorem matchSegments_param_iff (name : String) (ps : List Segment) (segs : List String)
    (bound : PathParams) :
    matchSegments (.param name :: ps) segs = some bound ↔
      ∃ c cs rest, segs = c :: cs ∧ matchSegments ps cs = some rest ∧
        bound = (name, c) :: rest := by
  cases segs with
  | nil => simp [matchSegments]
  | cons c cs =>
    simp only [matchSegments, Option.map_eq_some', List.cons.injEq]
    constructor
    · rintro ⟨rest, hrest, hb⟩
      exact ⟨c, cs, rest, ⟨rfl, rfl⟩, hrest, hb.symm⟩
    · rintro ⟨c2, cs2, rest, ⟨hc, hcs⟩, hrest, hb⟩
      subst hc
      subst hcs
      exact ⟨rest, hrest, hb.symm⟩

/-- The download pattern matches exactly the six-segment paths under
`/api/v1/user/avatar/download/`, binding the last segment to `code`. -/
theorem matchSegments_download (segs : List String) (bound : PathParams) :
    matchSegments
        [.lit "api", .lit "v1", .lit "user", .lit "avatar", .lit "download", .param "code"]
        segs = some bound ↔
      ∃ code, segs = ["api", "v1", "user", "avatar", "download", code] ∧
        bound = [("code", code)] := by
  constructor
  · intro h
    obtain ⟨s1, rfl, h1⟩ := (matchSegments_lit_iff _ _ _ _).1 h
    obtain ⟨s2, rfl, h2⟩ := (matchSegments_lit_iff _ _ _ _).1 h1
    obtain ⟨s3, rfl, h3⟩ := (matchSegments_lit_iff _ _ _ _).1 h2
    obtain ⟨s4, rfl, h4⟩ := (matchSegments_lit_iff _ _ _ _).1 h3
    obtain ⟨s5, rfl, h5⟩ := (matchSegments_lit_iff _ _ _ _).1 h4
    obtain ⟨code, cs, rest, rfl, h6, rfl⟩ := (matchSegments_param_iff _ _ _ _).1 h5
    obtain ⟨rfl, rfl⟩ := (matchSegments_nil_iff _ _).1 h6
    exact ⟨code, rfl, rfl⟩
  · rintro ⟨code, rfl, rfl⟩
    simp [matchSegments]

/-- The upload pattern matches exactly the path `/api/v1/user/avatar/upload`. -/
theorem matchSegments_upload (segs : List String) (bound : PathParams) :
    matchSegments [.lit "api", .lit "v1", .lit "user", .lit "avatar", .lit "upload"] segs =
        some bound ↔
      segs = ["api", "v1", "user", "avatar", "upload"] ∧ bound = [] := by
  constructor
  · intro h
    obtain ⟨s1, rfl, h1⟩ := (matchSegments_lit_iff _ _ _ _).1 h
    obtain ⟨s2, rfl, h2⟩ := (matchSegments_lit_iff _ _ _ _).1 h1
    obtain ⟨s3, rfl, h3⟩ := (matchSegments_lit_iff _ _ _ _).1 h2
    obtain ⟨s4, rfl, h4⟩ := (matchSegments_lit_iff _ _ _ _).1 h3
    obtain ⟨s5, rfl, h5⟩ := (matchSegments_lit_iff _ _ _ _).1 h4
    obtain ⟨rfl, rfl⟩ := (matchSegments_nil_iff _ _).1 h5
    exact ⟨rfl, rfl⟩
  · rintro ⟨rfl, rfl⟩
    simp [matchSegments]

theorem matchPath_method_ne (r : Route) (meth path : String) (h : r.method ≠ meth) :
    r.matchPath meth path = none := by
  simp [Route.matchPath, h]

/-- When the download route matches. -/
theorem download_matchPath (hf : HandlerFunc) (meth path : String) (bound : PathParams) :
    Route.matchPath { method := "GET", pattern := "/api/v1/user/avatar/download/{code}",
                      handler := hf } meth path = some bound ↔
      meth = "GET" ∧ ∃ code,
        pathSegments path = some ["api", "v1", "user", "avatar", "download", code] ∧
        bound = [("code", code)] := by
  by_cases hm : "GET" = meth
  · subst hm
    simp only [Route.matchPath, parse_download, if_true, true_and]
    cases hseg : pathSegments path with
    | none => simp
    | some segs =>
      simp only [matchSegments_download, Option.some.injEq]
  · have hm2 : ¬ meth = "GET" := fun h => hm h.symm
    simp [Route.matchPath, hm, hm2]

/-- When the upload route matches. -/
theorem upload_matchPath (hf : HandlerFunc) (meth path : String) (bound : PathParams) :
    Route.matchPath { method := "POST", pattern := "/api/v1/user/avatar/upload",
                      handler := hf } meth path = some bound ↔
      meth = "POST" ∧
        pathSegments path = some ["api", "v1", "user", "avatar", "upload"] ∧ bound = [] := by
  by_cases hm : "POST" = meth
  · subst hm
    simp only [Route.matchPath, parse_upload, if_true, true_and]
    cases hseg : pathSegments path with
    | none => simp
    | some segs =>
      simp only [matchSegments_upload, Option.some.injEq]
  · have hm2 : ¬ meth = "POST" := fun h => hm h.symm
    simp [Route.matchPath, hm, hm2]

/-- Two routes of different methods: at most one matches, and the table's
answer is the matching one, or NotFound. -/
theorem two_methods_match (d u : Route) (hdu : d.method ≠ u.method) (meth path : String) :
    (matchingRoutes [d, u] meth path).length ≤ 1 ∧
    (matchingRoutes [d, u] meth path = [] → RouteTable.matchRoute [d, u] meth path = none) ∧
    (∀ r, r ∈ matchingRoutes [d, u] meth path →
      matchingRoutes [d, u] meth path = [r] ∧
      ∃ bound, r.matchPath meth path = some bound ∧
        RouteTable.matchRoute [d, u] meth path = some (r, bound)) := by
  by_cases hd : d.method = meth
  · have hu : u.matchPath meth path = none :=
      matchPath_method_ne u meth path (fun h => hdu (hd.trans h.symm))
    cases hdm : d.matchPath meth path with
    | none =>
      simp [matchingRoutes, RouteTable.matchRoute, hu, hdm]
    | some b =>
      simp [matchingRoutes, RouteTable.matchRoute, hu, hdm, moreSpecific]
  · have hdn : d.matchPath meth path = none := matchPath_method_ne d meth path hd
    cases hum : u.matchPath meth path with
    | none =>
      simp [matchingRoutes, RouteTable.matchRoute, hdn, hum]
    | some b =>
      simp [matchingRoutes, RouteTable.matchRoute, hdn, hum, moreSpecific]

/-- C6: of the two routes that AddUserHTTPMethods registers, at most one
matches any given (method, concrete path) pair; the download route matches
exactly GET with a path of the six segments api, v1, user, avatar, download
and one more, which it binds to code; the upload route matches exactly POST
with the path /api/v1/user/avatar/upload; a pair that matches neither yields
NotFound, and a pair that matches one yields that route. -/
theorem C6_unambiguous_matching (lib : Lib) (userHttpEndpoint : String) (mux : ServeMux)
    (hreg : lib.HandlePath = RouteTable.register)
    (hok : (AddUserHTTPMethods lib userHttpEndpoint mux).outcome = .returned none)
    (meth path : String) :
    ∃ download upload : Route,
      (AddUserHTTPMethods lib userHttpEndpoint mux).mux.routes.drop mux.routes.length =
        [download, upload] ∧
      (download.method = "GET" ∧ download.pattern = "/api/v1/user/avatar/download/{code}") ∧
      (upload.method = "POST" ∧ upload.pattern = "/api/v1/user/avatar/upload") ∧
      (matchingRoutes [download, upload] meth path).length ≤ 1 ∧
      (∀ bound, download.matchPath meth path = some bound ↔
        meth = "GET" ∧ ∃ code,
          pathSegments path = some ["api", "v1", "user", "avatar", "download", code] ∧
          bound = [("code", code)]) ∧
      (∀ bound, upload.matchPath meth path = some bound ↔
        meth = "POST" ∧
          pathSegments path = some ["api", "v1", "user", "avatar", "upload"] ∧ bound = []) ∧
      (matchingRoutes [download, upload] meth path = [] →
        RouteTable.matchRoute [download, upload] meth path = none) ∧
      (∀ r, r ∈ matchingRoutes [download, upload] meth path →
        matchingRoutes [download, upload] meth path = [r] ∧
        ∃ bound, r.matchPath meth path = some bound ∧
          RouteTable.matchRoute [download, upload] meth path = some (r, bound)) := by
  obtain ⟨target, _, hmux⟩ := addUser_routes lib userHttpEndpoint mux hreg hok
  have hdu : (Route.mk "GET" "/api/v1/user/avatar/download/{code}"
        (.forwardMethod (NewSingleHostReverseProxy target))).method ≠
      (Route.mk "POST" "/api/v1/user/avatar/upload"
        (.forwardMethod (NewSingleHostReverseProxy target))).method := by
    show "GET" ≠ "POST"
    decide
  obtain ⟨hle, hnone, hsome⟩ := two_methods_match _ _ hdu meth path
  refine ⟨_, _, ?_, ⟨rfl, rfl⟩, ⟨rfl, rfl⟩, hle, ?_, ?_, hnone, hsome⟩
  · rw [hmux]
    simp
  · intro bound
    exact download_matchPath _ meth path bound
  · intro bound
    exact upload_matchPath _ meth path bound

/-- C6 at GET /api/v1/user/avatar/download/abc123: only the download route
matches, with code = "abc123", and it is the table's answer. -/
theorem C6_unambiguous_matching_witness :
    matchingRoutes (AddUserHTTPMethods sampleLib "user:8080" (NewServeMux [])).mux.routes
        "GET" "/api/v1/user/avatar/download/abc123" =
      [{ method := "GET", pattern := "/api/v1/user/avatar/download/{code}",
         handler := .forwardMethod (NewSingleHostReverseProxy
           { Scheme := "http", Host := "user:8080", Path := "", query := [] }) }] ∧
    RouteTable.matchRoute (AddUserHTTPMethods sampleLib "user:8080" (NewServeMux [])).mux.routes
        "GET" "/api/v1/user/avatar/download/abc123" =
      some ({ method := "GET", pattern := "/api/v1/user/avatar/download/{code}",
              handler := .forwardMethod (NewSingleHostReverseProxy
                { Scheme := "http", Host := "user:8080", Path := "", query := [] }) },
            [("code", "abc123")]) := by
  obtain ⟨download, upload, hdrop, _, _, _, hdown, _, _, hsome⟩ :=
    C6_unambiguous_matching sampleLib "user:8080" (NewServeMux []) rfl (by decide)
      "GET" "/api/v1/user/avatar/download/abc123"
  have hroutes : (AddUserHTTPMethods sampleLib "user:8080" (NewServeMux [])).mux.routes =
      [download, upload] := by
    simpa [NewServeMux] using hdrop
  have hconcrete : (AddUserHTTPMethods sampleLib "user:8080" (NewServeMux [])).mux.routes =
      [{ method := "GET", pattern := "/api/v1/user/avatar/download/{code}",
         handler := .forwardMethod (NewSingleHostReverseProxy
           { Scheme := "http", Host := "user:8080", Path := "", query := [] }) },
       { method := "POST", pattern := "/api/v1/user/avatar/upload",
         handler := .forwardMethod (NewSingleHostReverseProxy
           { Scheme := "http", Host := "user:8080", Path := "", query := [] }) }] := by
    decide
  have hd : download = Route.mk "GET" "/api/v1/user/avatar/download/{code}"
      (.forwardMethod (NewSingleHostReverseProxy
        { Scheme := "http", Host := "user:8080", Path := "", query := [] })) := by
    have h := hroutes.symm.trans hconcrete
    injection h
  have hmatch : download.matchPath "GET" "/api/v1/user/avatar/download/abc123" =
      some [("code", "abc123")] :=
    (hdown [("code", "abc123")]).2 ⟨rfl, "abc123", by decide, rfl⟩
  have hmem : download ∈ matchingRoutes [download, upload] "GET"
      "/api/v1/user/avatar/download/abc123" := by
    simp [matchingRoutes, hmatch]
  obtain ⟨hone, bound, hb, hres⟩ := hsome download hmem
  rw [hmatch] at hb
  cases hb
  rw [hroutes, hone, hres, hd]
  exact ⟨rfl, rfl⟩

/-! ## Startup -/

/-- C7: if the tracking registration, the user registration or either
HandlePath call of AddUserHTTPMethods fails, the start action returns a
non-nil error, no server value is served and the serving goroutine (the only
caller of ListenAndServe) is never started; in AddUserHTTPMethods a failure of
the first HandlePath call is returned as it is, the mux is left as it was and
the second HandlePath call is not made. -/
theorem C7_registration_failure_surfaced (lib : Lib) (cfg : Config) :
    (∀ e, lib.RegisterTracking (NewServeMux [.tokenAnnotator]) cfg.TrackingEndPoint = .error e →
      (startAction lib cfg).outcome =
          .returned (some (Errorf "failed to register tracking: " e.Error)) ∧
        (startAction lib cfg).goroutine = none ∧ (startAction lib cfg).server = none) ∧
    (∀ mux1 e,
      lib.RegisterTracking (NewServeMux [.tokenAnnotator]) cfg.TrackingEndPoint = .ok mux1 →
      lib.RegisterUser mux1 cfg.UserEndPoint = .error e →
      (startAction lib cfg).outcome =
          .returned (some (Errorf "failed to register user: " e.Error)) ∧
        (startAction lib cfg).goroutine = none ∧ (startAction lib cfg).server = none) ∧
    (∀ mux1 mux2 e,
      lib.RegisterTracking (NewServeMux [.tokenAnnotator]) cfg.TrackingEndPoint = .ok mux1 →
      lib.RegisterUser mux1 cfg.UserEndPoint = .ok mux2 →
      (AddUserHTTPMethods lib cfg.UserHttpEndPoint mux2).outcome = .returned (some e) →
      (startAction lib cfg).outcome = .returned (some e) ∧
        (startAction lib cfg).goroutine = none ∧ (startAction lib cfg).server = none) ∧
    (∀ userHttpEndpoint mux target e,
      lib.Parse userHttpEndpoint = .ok target →
      lib.HandlePath mux "GET" "/api/v1/user/avatar/download/{code}"
        (.forwardMethod (NewSingleHostReverseProxy target)) = .error e →
      AddUserHTTPMethods lib userHttpEndpoint mux =
        { outcome := .returned (some e), mux := mux
          calls := [.Parse userHttpEndpoint,
                    .HandlePath "GET" "/api/v1/user/avatar/download/{code}"
                      (.forwardMethod (NewSingleHostReverseProxy target))] }) ∧
    (∀ userHttpEndpoint mux mux1 target e,
      lib.Parse userHttpEndpoint = .ok target →
      lib.HandlePath mux "GET" "/api/v1/user/avatar/download/{code}"
        (.forwardMethod (NewSingleHostReverseProxy target)) = .ok mux1 →
      lib.HandlePath mux1 "POST" "/api/v1/user/avatar/upload"
        (.forwardMethod (NewSingleHostReverseProxy target)) = .error e →
      (AddUserHTTPMethods lib userHttpEndpoint mux).outcome = .returned (some e)) := by
  refine ⟨?_, ?_, ?_, ?_, ?_⟩
  · intro e h
    simp [startAction, h]
  · intro mux1 e h1 h2
    simp [startAction, h1, h2]
  · intro mux1 mux2 e h1 h2 h3
    simp [startAction, h1, h2, h3]
  · intro userHttpEndpoint mux target e hp h1
    simp [AddUserHTTPMethods, hp, h1]
  · intro userHttpEndpoint mux mux1 target e hp h1 h2
    simp [AddUserHTTPMethods, hp, h1, h2]

/-- C7 where the tracking registration fails, where the user registration
fails, and where the first and the second HandlePath call conflict. -/
theorem C7_registration_failure_surfaced_witness :
    ((startAction trackingFailureLib sampleConfig).outcome =
        .returned (some (.errorString "failed to register tracking: dial failed")) ∧
      (startAction trackingFailureLib sampleConfig).goroutine = none) ∧
    ((startAction userFailureLib sampleConfig).outcome =
        .returned (some (.errorString "failed to register user: dial failed")) ∧
      (startAction userFailureLib sampleConfig).goroutine = none) ∧
    ((startAction conflictLib sampleConfig).outcome = .returned (some RouteConflict) ∧
      (startAction conflictLib sampleConfig).goroutine = none) ∧
    ((startAction uploadConflictLib sampleConfig).outcome = .returned (some RouteConflict) ∧
      (startAction uploadConflictLib sampleConfig).goroutine = none) := by
  refine ⟨?_, ?_, ?_, ?_⟩
  · have h := (C7_registration_failure_surfaced trackingFailureLib sampleConfig).1
      (.errorString "dial failed") rfl
    exact ⟨h.1, h.2.1⟩
  · have h := (C7_registration_failure_surfaced userFailureLib sampleConfig).2.1
      _ (.errorString "dial failed") rfl rfl
    exact ⟨h.1, h.2.1⟩
  · have h := (C7_registration_failure_surfaced conflictLib sampleConfig).2.2.1
      _ _ RouteConflict rfl rfl (by decide)
    exact ⟨h.1, h.2.1⟩
  · have h := (C7_registration_failure_surfaced uploadConflictLib sampleConfig).2.2.1
      _ _ RouteConflict rfl rfl (by decide)
    exact ⟨h.1, h.2.1⟩

/-- C8, as stated, fails: where the listener cannot bind the address, the
start action does not end with a non-nil error. Once the signal is delivered
it returns nil; without a signal it keeps waiting. -/
theorem C8_bind_failure_not_returned :
    bindFailureLib.ListenAndServe (JoinHostPort "0.0.0.0" "5000") =
      some (.errorString "listen tcp 0.0.0.0:5000: bind: address already in use") ∧
    GoError.errorString "listen tcp 0.0.0.0:5000: bind: address already in use" ≠
      GoError.ErrServerClosed ∧
    (startAction bindFailureLib sampleConfig).outcome = .returned none ∧
    (¬ ∃ e, (startAction bindFailureLib sampleConfig).outcome = .returned (some e)) ∧
    (startAction bindFailureNoSignalLib sampleConfig).outcome = .waiting := by
  refine ⟨rfl, by decide, by decide, ?_, by decide⟩
  rintro ⟨e, he⟩
  have h : (startAction bindFailureLib sampleConfig).outcome = .returned none := by decide
  rw [h] at he
  cases he

/-- The start action once the registrations succeeded: it serves, waits for
the signal and returns what the shutdown yields. -/
theorem startAction_started (lib : Lib) (cfg : Config) (srv : Server)
    (hsrv : (startAction lib cfg).server = some srv) :
    srv.Addr = JoinHostPort cfg.ServiceHost (toString cfg.ServicePort) ∧
    (startAction lib cfg).goroutine = some (serveGoroutine lib srv.Addr) ∧
    (startAction lib cfg).outcome =
      (if lib.signalDelivered then
        match lib.Shutdown with
        | some err => .returned (some (Errorf "HTTP server shutdown error: " err.Error))
        | none => .returned none
       else .waiting) := by
  unfold startAction at hsrv ⊢
  cases h1 : lib.RegisterTracking (NewServeMux [.tokenAnnotator]) cfg.TrackingEndPoint with
  | error e => simp [h1] at hsrv
  | ok mux1 =>
    cases h2 : lib.RegisterUser mux1 cfg.UserEndPoint with
    | error e => simp [h1, h2] at hsrv
    | ok mux2 =>
      simp only [h1, h2] at hsrv ⊢
      cases h3 : (AddUserHTTPMethods lib cfg.UserHttpEndPoint mux2).outcome with
      | exited st => simp [h3] at hsrv
      | waiting => simp [h3] at hsrv
      | returned err =>
        cases err with
        | some e => simp [h3] at hsrv
        | none =>
          simp only [h3] at hsrv ⊢
          cases hsig : lib.signalDelivered with
          | false =>
            simp only [hsig] at hsrv ⊢
            simp at hsrv
            subst hsrv
            simp
          | true =>
            simp only [hsig] at hsrv ⊢
            cases hsh : lib.Shutdown with
            | none =>
              simp only [hsh] at hsrv ⊢
              simp at hsrv
              subst hsrv
              simp
            | some err =>
              simp only [hsh] at hsrv ⊢
              simp at hsrv
              subst hsrv
              simp

/-- C8, amended: if the listener fails to bind the gateway address
(ListenAndServe returns an error other than ErrServerClosed), the serving
goroutine logs that error at error level, and the start action does not end
on it: it keeps waiting for a shutdown signal and, once the signal is
delivered, returns what the shutdown yields, nil when Shutdown succeeds. -/
theorem C8_bind_failure_logged (lib : Lib) (cfg : Config) (srv : Server) (e : GoError)
    (hsrv : (startAction lib cfg).server = some srv)
    (hbind : lib.ListenAndServe srv.Addr = some e)
    (hne : e ≠ GoError.ErrServerClosed) :
    (startAction lib cfg).goroutine =
      some [.Info "starting gateway HTTP server" srv.Addr, .ListenAndServe srv.Addr,
            .Error "failed to serve gateway http server" e] ∧
    (startAction lib cfg).outcome =
      (if lib.signalDelivered then
        match lib.Shutdown with
        | some err => .returned (some (Errorf "HTTP server shutdown error: " err.Error))
        | none => .returned none
       else .waiting) := by
  obtain ⟨_, hgo, hout⟩ := startAction_started lib cfg srv hsrv
  refine ⟨?_, hout⟩
  rw [hgo]
  simp [serveGoroutine, hbind, hne]

/-- C8 amended, where the address is already in use: the error is logged and
the action returns nil after the signal. -/
theorem C8_bind_failure_logged_witness :
    (startAction bindFailureLib sampleConfig).goroutine =
      some [.Info "starting gateway HTTP server" "0.0.0.0:5000",
            .ListenAndServe "0.0.0.0:5000",
            .Error "failed to serve gateway http server"
              (.errorString "listen tcp 0.0.0.0:5000: bind: address already in use")] ∧
    (startAction bindFailureLib sampleConfig).outcome = .returned none :=
  C8_bind_failure_logged bindFailureLib sampleConfig
    { Addr := "0.0.0.0:5000"
      Handler := (AddUserHTTPMethods bindFailureLib "user:8080"
        { metadataAnnotators := [.tokenAnnotator],
          routes := [{ method := "POST", pattern := "/api/v1/tracking",
                       handler := .generated "tracking" },
                     { method := "POST", pattern := "/api/v1/user",
                       handler := .generated "user" }] }).mux }
    (.errorString "listen tcp 0.0.0.0:5000: bind: address already in use")
    (by decide) rfl (by decide)

end Gateway
